import Mathlib

/-
Verification development for the fenicsR13 repository.

The repository contains two versions of the solver module,
src/src/solver.py (below: the Src version) and
src/fenicsR13/src/solver.py (below: the Fen version).  Both assemble the
weak forms of the linearized R13 heat and stress systems on a 2D mesh via
the UFL symbolic form language, solve the resulting linear system, compute
error norms against compiled exact solutions and write XDMF output.

The development has two layers.

Layer 1 (rational semantics): the tensor-algebra helper functions that the
solver defines (gen3dTracefreeTensor, grad3dOf2, sym3, dev3, and the
hardcoded expansion inside innerOfDevOfGrad2AndGrad2) are pure algebra on
tensor components; they are embedded as computable functions over the
rationals, with a field's first-order data represented by the jet of its
partial derivatives.

Layer 2 (form syntax): the UFL expression trees that Solver.assemble builds
are embedded as a deep syntax SExpr over rational scalar coefficients
(Python performs the scalar arithmetic numerically before the value enters
the UFL tree, so scalar subexpressions are collapsed to rational constants,
while every UFL node is kept).  A variational form is the list of its
integrals, each an integrand paired with its measure (dx, ds or dS),
matching the way UFL accumulates integrals under form addition.
-/

/-! ### Layer 1: rational semantics of the tensor helpers -/

/-- Jet of a 2x2 tensor field: entry i j k is the partial derivative
along direction k of component (i,j) of the field. -/
abbrev Jet2 := Fin 2 → Fin 2 → Fin 2 → ℚ

/-- Rank-3 tensor over the rationals, indexed by three 3D indices. -/
abbrev T3 := Fin 3 → Fin 3 → Fin 3 → ℚ

/-- Rational semantics of gen3dTracefreeTensor from
src/fenicsR13/src/solver.py: the synthetic 3D tensor of a 2D rank-2
tensor, with upper-left block the input, zero mixed entries and
lower-right entry the negated 2D trace. -/
def gen3dQ (B : Fin 2 → Fin 2 → ℚ) : Fin 3 → Fin 3 → ℚ
  | ⟨0, _⟩, ⟨0, _⟩ => B 0 0
  | ⟨0, _⟩, ⟨1, _⟩ => B 0 1
  | ⟨0, _⟩, ⟨2, _⟩ => 0
  | ⟨1, _⟩, ⟨0, _⟩ => B 1 0
  | ⟨1, _⟩, ⟨1, _⟩ => B 1 1
  | ⟨1, _⟩, ⟨2, _⟩ => 0
  | ⟨2, _⟩, ⟨0, _⟩ => 0
  | ⟨2, _⟩, ⟨1, _⟩ => 0
  | ⟨2, _⟩, ⟨2, _⟩ => -B 0 0 - B 1 1

/-- Rational semantics of grad3dOf2 applied to gen3dTracefreeTensor of a
2D field with jet D, from src/fenicsR13/src/solver.py.  grad3dOf2 stacks
the two in-plane partial derivatives of the 3x3 tensor and a zero slab,
with the derivative direction as the first index.  Since
gen3dTracefreeTensor is linear in the entries of its argument, the partial
derivative of each entry of the synthetic tensor is the corresponding
entry of the synthetic tensor of the differentiated field, which is what
the first two slabs below compute. -/
def grad3dOf2Gen (D : Jet2) : T3
  | ⟨0, _⟩, i, j => gen3dQ (fun a b => D a b 0) i j
  | ⟨1, _⟩, i, j => gen3dQ (fun a b => D a b 1) i j
  | ⟨2, _⟩, _, _ => 0

/-- Rational semantics of sym3 from src/fenicsR13/src/solver.py: the
symmetric part of a rank-3 tensor, averaging over all six index
permutations in the order written in the source. -/
def sym3Q (T : T3) : T3 := fun i j k =>
  (1/6 : ℚ) * (T i j k + T i k j + T j i k + T j k i + T k i j + T k j i)

/-- Rational semantics of dev3 from src/fenicsR13/src/solver.py: the
deviator of a rank-3 tensor, subtracting the trace part built from the
three contractions of the symmetrized tensor with Kronecker deltas. -/
def dev3Q (T : T3) : T3 := fun i j k =>
  sym3Q T i j k - (1/5 : ℚ) * (
    (∑ l, sym3Q T i l l) * (if j = k then (1:ℚ) else 0)
    + (∑ l, sym3Q T j l l) * (if i = k then (1:ℚ) else 0)
    + (∑ l, sym3Q T k l l) * (if i = j then (1:ℚ) else 0))

/-- Rational semantics of df.inner for two real rank-3 tensors: the full
contraction over all three indices. -/
def inner3Q (A B : T3) : ℚ := ∑ i, ∑ j, ∑ k, A i j k * B i j k

/-- Transcription of the hardcoded expansion inside
innerOfDevOfGrad2AndGrad2 (the expression returned when hardcoded is True)
in src/fenicsR13/src/solver.py, with sigma[i, j].dx(k) replaced by
S i j k and psi[i, j].dx(k) replaced by P i j k. -/
def hardcodedInner (S P : Jet2) : ℚ :=
  P 1 1 1 * ((3 * S 1 1 1)/5 - S 0 1 0/5 - S 1 0 0/5)
  + (-P 0 0 1 - P 1 1 1) * (-S 0 0 1/3 - (7 * S 1 1 1)/15 - S 0 1 0/15 - S 1 0 0/15)
  + P 0 0 1 * (S 0 0 1/3 - (2 * S 1 1 1)/15 + (4 * S 0 1 0)/15 + (4 * S 1 0 0)/15)
  + P 0 1 1 * ((4 * S 0 1 1)/15 + (4 * S 1 0 1)/15 - (2 * S 0 0 0)/15 + S 1 1 0/3)
  + P 1 0 1 * ((4 * S 0 1 1)/15 + (4 * S 1 0 1)/15 - (2 * S 0 0 0)/15 + S 1 1 0/3)
  + (-S 0 1 1/5 - S 1 0 1/5 + (3 * S 0 0 0)/5) * P 0 0 0
  + (S 0 0 1/3 - (2 * S 1 1 1)/15 + (4 * S 0 1 0)/15 + (4 * S 1 0 0)/15) * P 0 1 0
  + (S 0 0 1/3 - (2 * S 1 1 1)/15 + (4 * S 0 1 0)/15 + (4 * S 1 0 0)/15) * P 1 0 0
  + (-S 0 1 1/15 - S 1 0 1/15 - (7 * S 0 0 0)/15 - S 1 1 0/3) * (-P 0 0 0 - P 1 1 0)
  + ((4 * S 0 1 1)/15 + (4 * S 1 0 1)/15 - (2 * S 0 0 0)/15 + S 1 1 0/3) * P 1 1 0

/-- Rational semantics of the compositional branch of
innerOfDevOfGrad2AndGrad2 (the expression returned when hardcoded is
False) in src/fenicsR13/src/solver.py: the inner product of the deviator
of the 3D gradient of the synthetic tensor of sigma with the 3D gradient
of the synthetic tensor of psi, at the jet level. -/
def compositionalInner (S P : Jet2) : ℚ :=
  inner3Q (dev3Q (grad3dOf2Gen S)) (grad3dOf2Gen P)

/-- Embedding of Solver.calc_sf_mean over exact rational arithmetic, with
the coefficient vector of the scalar function as a list.  Both versions
compute the sum of the entries divided by their count (np.mean in the Fen
version at src/fenicsR13/src/solver.py line 527, v.sum()/v.size() in the
Src version at src/src/solver.py line 442). -/
def calc_sf_mean (v : List ℚ) : ℚ := v.sum / v.length

/-! ### Layer 2: deep embedding of the UFL expression trees built by assemble -/

/-- Atoms appearing in the weak forms: the trial functions theta, s, p, u,
sigma, the test functions kappa, r, q, v, psi, and the two source-term
Expressions built from the parameter strings (identical in both modules
for identical parameter dicts). -/
inductive FieldAtom where
  | theta | s | p | u | sigma | kappa | r | q | v | psi
  | heatSource | massSource
  deriving DecidableEq, Repr

/-- Scalar UFL expressions over rational scalar coefficients.  Python
evaluates arithmetic between plain numbers before the value enters a UFL
tree, so such subexpressions appear as a single const node; every UFL
operation on fields is a node.  comp f idx is a component of a (possibly
vector- or tensor-valued) function, deriv e k is the spatial derivative
along direction k introduced by grad/div, restrict e b is the facet
restriction (b = true for the plus side), normal i is a component of the
facet normal and cellDiam is CellDiameter. -/
inductive SExpr where
  | const (c : ℚ)
  | comp (f : FieldAtom) (idx : List ℕ)
  | deriv (e : SExpr) (k : ℕ)
  | restrict (e : SExpr) (plus : Bool)
  | normal (i : ℕ)
  | cellDiam
  | add (a b : SExpr)
  | sub (a b : SExpr)
  | neg (a : SExpr)
  | mul (a b : SExpr)
  | divE (a b : SExpr)
  | pow (a : SExpr) (n : ℕ)
  deriving DecidableEq, Repr

/-- Vector-valued expression on the 2D cell. -/
abbrev Vec2 := Fin 2 → SExpr

/-- Rank-2 expression on the 2D cell. -/
abbrev Mat2 := Fin 2 → Fin 2 → SExpr

/-- Rank-2 expression with 3D indices. -/
abbrev Mat3 := Fin 3 → Fin 3 → SExpr

/-- Rank-3 expression with 3D indices. -/
abbrev R3 := Fin 3 → Fin 3 → Fin 3 → SExpr

/-- df.dot of two 2D vectors: the contraction over the single index. -/
def dotVec (a b : Vec2) : SExpr := .add (.mul (a 0) (b 0)) (.mul (a 1) (b 1))

/-- df.inner of two real 2D vectors coincides with df.dot. -/
def innerVec (a b : Vec2) : SExpr := dotVec a b

/-- Product of a rank-2 expression with a vector, as in sigma*n. -/
def matVec (M : Mat2) (x : Vec2) : Vec2 :=
  fun i => .add (.mul (M i 0) (x 0)) (.mul (M i 1) (x 1))

/-- df.inner of two rank-2 expressions: the full contraction. -/
def innerMat (A B : Mat2) : SExpr :=
  .add (.add (.add (.mul (A 0 0) (B 0 0)) (.mul (A 0 1) (B 0 1)))
    (.mul (A 1 0) (B 1 0))) (.mul (A 1 1) (B 1 1))

/-- df.grad of a scalar expression. -/
def gradScalar (e : SExpr) : Vec2 := fun k => .deriv e k.val

/-- df.grad of a vector expression; index order grad(v)[i, k] is the
derivative of v[i] along k. -/
def gradVec (v : Vec2) : Mat2 := fun i k => .deriv (v i) k.val

/-- df.div of a vector expression. -/
def divVec (v : Vec2) : SExpr := .add (.deriv (v 0) 0) (.deriv (v 1) 1)

/-- df.div of a rank-2 expression: row-wise divergence. -/
def divMat (M : Mat2) : Vec2 := fun i => .add (.deriv (M i 0) 0) (.deriv (M i 1) 1)

/-- ufl.tr of a rank-2 expression. -/
def trMat (M : Mat2) : SExpr := .add (M 0 0) (M 1 1)

/-- ufl.Identity(2). -/
def identity2 : Mat2 := fun i j => .const (if i = j then 1 else 0)

/-- ufl.transpose of a rank-2 expression. -/
def transposeMat (M : Mat2) : Mat2 := fun i j => M j i

/-- df.sym: the symmetric part (A + transpose(A))/2. -/
def symMat (M : Mat2) : Mat2 := fun i j => .divE (.add (M i j) (M j i)) (.const 2)

/-- FacetNormal components. -/
def normalVec : Vec2 := fun i => .normal i.val

/-- ufl.perp: (-n[1], n[0]). -/
def perpVec (n : Vec2) : Vec2
  | ⟨0, _⟩ => .neg (n 1)
  | ⟨1, _⟩ => n 0

/-- Facet restriction of a vector expression. -/
def restrictVec (v : Vec2) (b : Bool) : Vec2 := fun i => .restrict (v i) b

/-- Facet restriction of a rank-2 expression. -/
def restrictMat (M : Mat2) (b : Bool) : Mat2 := fun i j => .restrict (M i j) b

/-- df.jump(v, n) for a rank-1 argument:
dot(v plus, n plus) + dot(v minus, n minus). -/
def jumpVecN (v : Vec2) : SExpr :=
  .add (dotVec (restrictVec v true) (restrictVec normalVec true))
       (dotVec (restrictVec v false) (restrictVec normalVec false))

/-- df.jump(T, n) for a rank-2 argument:
dot(T plus, n plus) + dot(T minus, n minus), a vector. -/
def jumpMatN (M : Mat2) : Vec2 := fun i =>
  .add (matVec (restrictMat M true) (restrictVec normalVec true) i)
       (matVec (restrictMat M false) (restrictVec normalVec false) i)

/-- h_avg = (h plus + h minus)/2.0 with h = CellDiameter. -/
def hAvg : SExpr :=
  .divE (.add (.restrict .cellDiam true) (.restrict .cellDiam false)) (.const 2)

/-- Trial function theta. -/
def thetaE : SExpr := .comp .theta []

/-- Test function kappa. -/
def kappaE : SExpr := .comp .kappa []

/-- Trial function p. -/
def pE : SExpr := .comp .p []

/-- Test function q. -/
def qE : SExpr := .comp .q []

/-- Trial function s. -/
def sVec : Vec2 := fun i => .comp .s [i.val]

/-- Test function r. -/
def rVec : Vec2 := fun i => .comp .r [i.val]

/-- Trial function u. -/
def uVec : Vec2 := fun i => .comp .u [i.val]

/-- Test function v. -/
def vVec : Vec2 := fun i => .comp .v [i.val]

/-- Trial function sigma. -/
def sigmaMat : Mat2 := fun i j => .comp .sigma [i.val, j.val]

/-- Test function psi. -/
def psiMat : Mat2 := fun i j => .comp .psi [i.val, j.val]

/-- Heat source Expression built from the parameter dict. -/
def heatSourceE : SExpr := .comp .heatSource []

/-- Mass source Expression built from the parameter dict. -/
def massSourceE : SExpr := .comp .massSource []

/-- dev3d from src/fenicsR13/src/solver.py:
0.5*(mat + transpose(mat)) - (1/3)*tr(mat)*Identity(2). -/
def dev3d (mat : Mat2) : Mat2 := fun i j =>
  .sub (.mul (.const (1/2)) (.add (mat i j) (transposeMat mat i j)))
       (.mul (.mul (.const (1/3)) (trMat mat)) (identity2 i j))

/-- innerOfTracefree2 from src/fenicsR13/src/solver.py: the 3D inner
product of two symmetric tracefree 2D rank-2 tensors, df.inner plus the
four products coming from the reconstructed zz components. -/
def innerOfTracefree2 (A B : Mat2) : SExpr :=
  .add (.add (.add (.add (innerMat A B)
    (.mul (A 0 0) (B 0 0)))
    (.mul (A 0 0) (B 1 1)))
    (.mul (A 1 1) (B 0 0)))
    (.mul (A 1 1) (B 1 1))

/-- gen3dTracefreeTensor from src/fenicsR13/src/solver.py at the
expression level: df.as_tensor of the 3x3 list with the negated 2D trace
in the corner. -/
def gen3dTracefreeTensor (m : Mat2) : Mat3
  | ⟨0, _⟩, ⟨0, _⟩ => m 0 0
  | ⟨0, _⟩, ⟨1, _⟩ => m 0 1
  | ⟨0, _⟩, ⟨2, _⟩ => .const 0
  | ⟨1, _⟩, ⟨0, _⟩ => m 1 0
  | ⟨1, _⟩, ⟨1, _⟩ => m 1 1
  | ⟨1, _⟩, ⟨2, _⟩ => .const 0
  | ⟨2, _⟩, ⟨0, _⟩ => .const 0
  | ⟨2, _⟩, ⟨1, _⟩ => .const 0
  | ⟨2, _⟩, ⟨2, _⟩ => .sub (.neg (m 0 0)) (m 1 1)

/-- grad3dOf2 from src/fenicsR13/src/solver.py at the expression level:
the two in-plane derivative slabs of the 3x3 argument and a zero slab,
derivative index first. -/
def grad3dOf2 (m : Mat3) : R3
  | ⟨0, _⟩, i, j => .deriv (m i j) 0
  | ⟨1, _⟩, i, j => .deriv (m i j) 1
  | ⟨2, _⟩, _, _ => .const 0

/-- sym3 from src/fenicsR13/src/solver.py at the expression level. -/
def sym3 (T : R3) : R3 := fun i j k =>
  .mul (.const (1/6))
    (.add (.add (.add (.add (.add (T i j k) (T i k j)) (T j i k)) (T j k i)) (T k i j)) (T k j i))

/-- Contraction sym3(T)[i, l, l] over the repeated index l, as UFL index
summation performs it. -/
def trSym3 (T : R3) (i : Fin 3) : SExpr := .add (.add (T i 0 0) (T i 1 1)) (T i 2 2)

/-- Identity(3) entries as scalar constants. -/
def id3E (i j : Fin 3) : SExpr := .const (if i = j then 1 else 0)

/-- dev3 from src/fenicsR13/src/solver.py at the expression level. -/
def dev3 (T : R3) : R3 := fun i j k =>
  .sub (sym3 T i j k)
    (.mul (.const (1/5))
      (.add (.add (.mul (trSym3 (sym3 T) i) (id3E j k)) (.mul (trSym3 (sym3 T) j) (id3E i k)))
        (.mul (trSym3 (sym3 T) k) (id3E i j))))

/-- Three-fold sum used to expand contractions over a 3D index. -/
def sum3E (f : Fin 3 → SExpr) : SExpr := .add (.add (f 0) (f 1)) (f 2)

/-- df.inner of two rank-3 expressions: full contraction. -/
def inner3E (A B : R3) : SExpr :=
  sum3E (fun i => sum3E (fun j => sum3E (fun k => .mul (A i j k) (B i j k))))

/-- innerOfDevOfGrad2AndGrad2 from src/fenicsR13/src/solver.py, the
branch actually executed (hardcoded is False): df.inner of
dev3(grad3dOf2(gen3dTracefreeTensor(sigma))) with
grad3dOf2(gen3dTracefreeTensor(psi)). -/
def innerOfDevOfGrad2AndGrad2 (sg ps : Mat2) : SExpr :=
  inner3E (dev3 (grad3dOf2 (gen3dTracefreeTensor sg))) (grad3dOf2 (gen3dTracefreeTensor ps))

/-- Integration measures: cell measure dx, exterior facet measure ds
(optionally restricted to a boundary id), interior facet measure dS. -/
inductive Meas where
  | dx
  | ds (sub : Option ℕ)
  | dS
  deriving DecidableEq, Repr

/-- A UFL form as the list of its integrals in the order form addition
accumulates them. -/
abbrev Form := List (SExpr × Meas)

/-- Boundary-condition data for one boundary id, as read from the
parameter dict. -/
structure BcData where
  theta_w : ℚ
  v_t : ℚ
  deriving DecidableEq, Repr

/-- Solver mode. -/
inductive Mode where
  | heat | stress | coupled
  deriving DecidableEq, Repr

/-- The parameters both solver modules read in their constructors. -/
structure Params where
  mode : Mode
  use_coeffs : Bool
  tau : ℚ
  xi_tilde : ℚ
  use_cip : Bool
  delta_1 : ℚ
  delta_2 : ℚ
  delta_3 : ℚ
  bcs : List (ℕ × BcData)
  deriving DecidableEq, Repr

/-- check_bcs, identical in both modules: scan the boundary id array and
raise on the first id that is neither 0 nor a key of the bcs dict. -/
def check_bcs (boundaryIds : List ℕ) (bcsSpecified : List ℕ) : Except String Unit :=
  match boundaryIds.find? (fun e => !((0 :: bcsSpecified).contains e)) with
  | some e => .error ("Mesh edge id " ++ toString e ++ " has no bcs!")
  | none => .ok ()

/-- Boundary projection s_n = dot(s, n). -/
def s_n : SExpr := dotVec sVec normalVec

/-- Boundary projection r_n = dot(r, n). -/
def r_n : SExpr := dotVec rVec normalVec

/-- Tangential vector t = ufl.perp(n). -/
def tVec : Vec2 := perpVec normalVec

/-- Boundary projection s_t = dot(s, t). -/
def s_t : SExpr := dotVec sVec tVec

/-- Boundary projection r_t = dot(r, t). -/
def r_t : SExpr := dotVec rVec tVec

/-- Boundary projection sigma_nn = dot(sigma*n, n). -/
def sigma_nn : SExpr := dotVec (matVec sigmaMat normalVec) normalVec

/-- Boundary projection psi_nn = dot(psi*n, n). -/
def psi_nn : SExpr := dotVec (matVec psiMat normalVec) normalVec

/-- Boundary projection sigma_tt = dot(sigma*t, t). -/
def sigma_tt : SExpr := dotVec (matVec sigmaMat tVec) tVec

/-- Boundary projection psi_tt = dot(psi*t, t). -/
def psi_tt : SExpr := dotVec (matVec psiMat tVec) tVec

/-- Boundary projection sigma_nt = dot(sigma*n, t). -/
def sigma_nt : SExpr := dotVec (matVec sigmaMat normalVec) tVec

/-- Boundary projection psi_nt = dot(psi*n, t). -/
def psi_nt : SExpr := dotVec (matVec psiMat normalVec) tVec

/-- Cell integrand of the heat form a1 in the use_coeffs branch:
12/5*tau*inner(dev3d(grad(s)), grad(r)) + 2/3*(1/tau)*inner(s, r)
- (5/2)*theta*div(r).  The scalar prefactors are evaluated by Python
before entering the tree. -/
def heatA1dxCoeffs (tau : ℚ) : SExpr :=
  .sub (.add (.mul (.const (12/5 * tau)) (innerMat (dev3d (gradVec sVec)) (gradVec rVec)))
             (.mul (.const (2/3 * (1/tau))) (innerVec sVec rVec)))
       (.mul (.mul (.const (5/2)) thetaE) (divVec rVec))

/-- Boundary integrand of the heat form a1 in the use_coeffs branch:
5/(4*xi_tilde)*s_n*r_n + 11/10*xi_tilde*s_t*r_t. -/
def heatA1dsCoeffs (xi : ℚ) : SExpr :=
  .add (.mul (.mul (.const (5/(4*xi))) s_n) r_n)
       (.mul (.mul (.const (11/10 * xi)) s_t) r_t)

/-- Cell integrand of the heat form a1 without coefficients:
tau*inner(dev3d(grad(s)), grad(r)) + (1/tau)*inner(s, r) - theta*div(r). -/
def heatA1dxPlain (tau : ℚ) : SExpr :=
  .sub (.add (.mul (.const tau) (innerMat (dev3d (gradVec sVec)) (gradVec rVec)))
             (.mul (.const (1/tau)) (innerVec sVec rVec)))
       (.mul thetaE (divVec rVec))

/-- Boundary integrand of the heat form a1 without coefficients:
1/(xi_tilde)*s_n*r_n + xi_tilde*s_t*r_t. -/
def heatA1dsPlain (xi : ℚ) : SExpr :=
  .add (.mul (.mul (.const (1/xi)) s_n) r_n)
       (.mul (.mul (.const xi) s_t) r_t)

/-- CIP stabilization integrand for the heat system:
- (delta_1 * h_avg**3 * jump(grad(theta), n) * jump(grad(kappa), n)),
integrated over the interior facets. -/
def heatStabIntegrand (d1 : ℚ) : SExpr :=
  .neg (.mul (.mul (.mul (.const d1) (.pow hAvg 3)) (jumpVecN (gradScalar thetaE)))
    (jumpVecN (gradScalar kappaE)))

/-- CIP stabilization integrand for the stress system:
delta_2 * h_avg**3 * dot(jump(grad(u), n), jump(grad(v), n))
- delta_3 * h_avg * jump(grad(p), n) * jump(grad(q), n),
integrated over the interior facets. -/
def stressStabIntegrand (d2 d3 : ℚ) : SExpr :=
  .sub (.mul (.mul (.const d2) (.pow hAvg 3))
             (dotVec (jumpMatN (gradVec uVec)) (jumpMatN (gradVec vVec))))
       (.mul (.mul (.mul (.const d3) hAvg) (jumpVecN (gradScalar pE)))
             (jumpVecN (gradScalar qE)))

/-- Cell integrand of the stress viscous form in the Fen version:
2*tau*innerOfDevOfGrad2AndGrad2(sigma, psi)
+ (1/tau)*innerOfTracefree2(sigma, psi) - 2*dot(u, div(sym(psi))). -/
def stressA1dxFen (tau : ℚ) : SExpr :=
  .sub (.add (.mul (.const (2 * tau)) (innerOfDevOfGrad2AndGrad2 sigmaMat psiMat))
             (.mul (.const (1/tau)) (innerOfTracefree2 sigmaMat psiMat)))
       (.mul (.const 2) (dotVec uVec (divMat (symMat psiMat))))

/-- Boundary integrand of the stress viscous form in the Fen version,
with the sigma_nn*psi_nn term scaled by 21/(10*xi_tilde):
21/(10*xi_tilde)*sigma_nn*psi_nn
+ 2*xi_tilde*((sigma_tt + (1/2)*sigma_nn)*(psi_tt + (1/2)*psi_nn))
+ (2/xi_tilde)*sigma_nt*psi_nt. -/
def stressA1dsFen (xi : ℚ) : SExpr :=
  .add (.add (.mul (.mul (.const (21/(10*xi))) sigma_nn) psi_nn)
             (.mul (.const (2 * xi))
               (.mul (.add sigma_tt (.mul (.const (1/2)) sigma_nn))
                     (.add psi_tt (.mul (.const (1/2)) psi_nn)))))
       (.mul (.mul (.const (2/xi)) sigma_nt) psi_nt)

/-- Forms (form_a, form_b) assembled by the Fen version in heat mode, from
src/fenicsR13/src/solver.py lines 323 to 378. -/
def heatFormsFen (P : Params) : Form × Form :=
  let a1 : Form :=
    if P.use_coeffs then
      [(heatA1dxCoeffs P.tau, Meas.dx), (heatA1dsCoeffs P.xi_tilde, Meas.ds none)]
    else
      [(heatA1dxPlain P.tau, Meas.dx), (heatA1dsPlain P.xi_tilde, Meas.ds none)]
  let a2 : Form := [(.neg (.mul (divVec sVec) kappaE), Meas.dx)]
  let l1 : Form :=
    if P.use_coeffs then
      P.bcs.map (fun bc => (.mul (.mul (.const (-(5/2))) r_n) (.const bc.2.theta_w),
        Meas.ds (some bc.1)))
    else
      P.bcs.map (fun bc => (.mul (.mul (.const (-1)) r_n) (.const bc.2.theta_w),
        Meas.ds (some bc.1)))
  let l2 : Form := [(.neg (.mul heatSourceE kappaE), Meas.dx)]
  let stab : Form := if P.use_cip then [(heatStabIntegrand P.delta_1, Meas.dS)] else []
  (a1 ++ a2 ++ stab, l1 ++ l2)

/-- Forms (form_a, form_b) assembled by the Fen version in stress mode
with use_coeffs, from src/fenicsR13/src/solver.py lines 380 to 434. -/
def stressFormsFen (P : Params) : Form × Form :=
  let a1 : Form := [(stressA1dxFen P.tau, Meas.dx), (stressA1dsFen P.xi_tilde, Meas.ds none)]
  let l1 : Form := P.bcs.map (fun bc =>
    (.mul (.mul (.const (-2)) psi_nt) (.const bc.2.v_t), Meas.ds (some bc.1)))
  let a2 : Form :=
    [(.add (dotVec (divMat sigmaMat) vVec) (dotVec (gradScalar pE) vVec), Meas.dx)]
  let l2 : Form := [(.mul (.const 0) (divVec vVec), Meas.dx)]
  let a3 : Form := [(dotVec uVec (gradScalar qE), Meas.dx)]
  let l3 : Form := [(.neg (.mul massSourceE qE), Meas.dx)]
  let stab : Form := if P.use_cip then [(stressStabIntegrand P.delta_2 P.delta_3, Meas.dS)] else []
  (a1 ++ a2 ++ a3 ++ stab, l1 ++ l2 ++ l3)

/-- Solver.assemble of the Fen version (src/fenicsR13/src/solver.py).
check_bcs runs first and its exception aborts assembly before any form is
constructed.  In stress mode without use_coeffs the viscous form is never
defined and referencing it raises a NameError; with mode coupled the Fen
version has no branch and leaves form_a and form_b as None. -/
def assembleFen (P : Params) (boundaryIds : List ℕ) :
    Except String (Option Form × Option Form) :=
  match check_bcs boundaryIds (P.bcs.map (fun bc => bc.1)) with
  | .error e => .error e
  | .ok _ =>
    match P.mode with
    | .heat => .ok (some (heatFormsFen P).1, some (heatFormsFen P).2)
    | .stress =>
      if P.use_coeffs then .ok (some (stressFormsFen P).1, some (stressFormsFen P).2)
      else .error "NameError: name a1 is not defined"
    | .coupled => .ok (none, none)

/-- Modelled from the spec: the module tensoroperations imported as to by
src/src/solver.py is code of this repository that is not under src; the
spec describes it only as the tensor algebra for 3D-from-2D
reconstructions.  Its function dev3d is modelled as the identically named
local helper of src/fenicsR13/src/solver.py. -/
def to_dev3d : Mat2 → Mat2 := dev3d

/-- Modelled from the spec: tensoroperations.innerOfTracefree2, modelled
as the identically named local helper of src/fenicsR13/src/solver.py. -/
def to_innerOfTracefree2 : Mat2 → Mat2 → SExpr := innerOfTracefree2

/-- Modelled from the spec: tensoroperations.innerOfDevOfGrad2AndGrad2,
modelled as the identically named local helper of
src/fenicsR13/src/solver.py. -/
def to_innerOfDevOfGrad2AndGrad2 : Mat2 → Mat2 → SExpr := innerOfDevOfGrad2AndGrad2

/-- Cell integrand of the stress viscous form a3 in the Src version:
2*tau*to.innerOfDevOfGrad2AndGrad2(sigma, psi)
+ (1/tau)*to.innerOfTracefree2(sigma, psi) - 2*dot(u, div(sym(psi))). -/
def stressA3dxSrc (tau : ℚ) : SExpr :=
  .sub (.add (.mul (.const (2 * tau)) (to_innerOfDevOfGrad2AndGrad2 sigmaMat psiMat))
             (.mul (.const (1/tau)) (to_innerOfTracefree2 sigmaMat psiMat)))
       (.mul (.const 2) (dotVec uVec (divMat (symMat psiMat))))

/-- Boundary integrand of the stress viscous form a3 in the Src version,
with the sigma_nn*psi_nn term scaled by 21/10*xi_tilde:
21/10*xi_tilde*sigma_nn*psi_nn
+ 2*xi_tilde*((sigma_tt + (1/2)*sigma_nn)*(psi_tt + (1/2)*psi_nn))
+ (2/xi_tilde)*sigma_nt*psi_nt. -/
def stressA3dsSrc (xi : ℚ) : SExpr :=
  .add (.add (.mul (.mul (.const (21/10 * xi)) sigma_nn) psi_nn)
             (.mul (.const (2 * xi))
               (.mul (.add sigma_tt (.mul (.const (1/2)) sigma_nn))
                     (.add psi_tt (.mul (.const (1/2)) psi_nn)))))
       (.mul (.mul (.const (2/xi)) sigma_nt) psi_nt)

/-- Cell integrand of the heat form a1 of the Src version in the
use_coeffs branch, using to.dev3d. -/
def heatA1dxCoeffsSrc (tau : ℚ) : SExpr :=
  .sub (.add (.mul (.const (12/5 * tau)) (innerMat (to_dev3d (gradVec sVec)) (gradVec rVec)))
             (.mul (.const (2/3 * (1/tau))) (innerVec sVec rVec)))
       (.mul (.mul (.const (5/2)) thetaE) (divVec rVec))

/-- Cell integrand of the heat form a1 of the Src version without
coefficients, using to.dev3d. -/
def heatA1dxPlainSrc (tau : ℚ) : SExpr :=
  .sub (.add (.mul (.const tau) (innerMat (to_dev3d (gradVec sVec)) (gradVec rVec)))
             (.mul (.const (1/tau)) (innerVec sVec rVec)))
       (.mul thetaE (divVec rVec))

/-- Heat forms (a1 + a2 + stab_heat, l1 + l2) of the Src version, from
src/src/solver.py lines 252 to 330. -/
def heatFormsSrc (P : Params) : Form × Form :=
  let a1 : Form :=
    if P.use_coeffs then
      [(heatA1dxCoeffsSrc P.tau, Meas.dx), (heatA1dsCoeffs P.xi_tilde, Meas.ds none)]
    else
      [(heatA1dxPlainSrc P.tau, Meas.dx), (heatA1dsPlain P.xi_tilde, Meas.ds none)]
  let a2 : Form := [(.neg (.mul (divVec sVec) kappaE), Meas.dx)]
  let l1 : Form :=
    if P.use_coeffs then
      P.bcs.map (fun bc => (.mul (.mul (.const (-(5/2))) r_n) (.const bc.2.theta_w),
        Meas.ds (some bc.1)))
    else
      P.bcs.map (fun bc => (.mul (.mul (.const (-1)) r_n) (.const bc.2.theta_w),
        Meas.ds (some bc.1)))
  let l2 : Form := [(.neg (.mul heatSourceE kappaE), Meas.dx)]
  let stab : Form := if P.use_cip then [(heatStabIntegrand P.delta_1, Meas.dS)] else []
  (a1 ++ a2 ++ stab, l1 ++ l2)

/-- Stress forms (a3 + a4 + a5 + stab_stress, l3 + l4 + l5) of the Src
version, from src/src/solver.py lines 270 to 333, only defined by the
source in the use_coeffs branch. -/
def stressFormsSrc (P : Params) : Form × Form :=
  let a3 : Form := [(stressA3dxSrc P.tau, Meas.dx), (stressA3dsSrc P.xi_tilde, Meas.ds none)]
  let l3 : Form := P.bcs.map (fun bc =>
    (.mul (.mul (.const (-2)) psi_nt) (.const bc.2.v_t), Meas.ds (some bc.1)))
  let a4 : Form :=
    [(.add (dotVec (divMat sigmaMat) vVec) (dotVec (gradScalar pE) vVec), Meas.dx)]
  let l4 : Form := [(.mul (.const 0) (divVec vVec), Meas.dx)]
  let a5 : Form := [(dotVec uVec (gradScalar qE), Meas.dx)]
  let l5 : Form := [(.neg (.mul massSourceE qE), Meas.dx)]
  let stab : Form := if P.use_cip then [(stressStabIntegrand P.delta_2 P.delta_3, Meas.dS)] else []
  (a3 ++ a4 ++ a5 ++ stab, l3 ++ l4 ++ l5)

/-- Solver.assemble of the Src version (src/src/solver.py).  check_bcs
runs first; with use_coeffs both systems are built and the mode selects
which sum of forms is stored; without use_coeffs only the heat pieces are
defined, so stress and coupled mode hit a NameError when combining. -/
def assembleSrc (P : Params) (boundaryIds : List ℕ) :
    Except String (Option Form × Option Form) :=
  match check_bcs boundaryIds (P.bcs.map (fun bc => bc.1)) with
  | .error e => .error e
  | .ok _ =>
    if P.use_coeffs then
      match P.mode with
      | .heat => .ok (some (heatFormsSrc P).1, some (heatFormsSrc P).2)
      | .stress => .ok (some (stressFormsSrc P).1, some (stressFormsSrc P).2)
      | .coupled => .ok (some ((heatFormsSrc P).1 ++ (stressFormsSrc P).1),
          some ((heatFormsSrc P).2 ++ (stressFormsSrc P).2))
    else
      match P.mode with
      | .heat => .ok (some (heatFormsSrc P).1, some (heatFormsSrc P).2)
      | _ => .error "NameError: name a3 is not defined"

/-- Evaluation of a scalar expression that interprets every non-arithmetic
leaf (function components, derivatives, restrictions, normals, cell
diameters) as the constant one and evaluates the arithmetic nodes over the
rationals.  Two expressions with different eval1 values denote different
UFL expressions. -/
def SExpr.eval1 : SExpr → ℚ
  | .const c => c
  | .add a b => a.eval1 + b.eval1
  | .sub a b => a.eval1 - b.eval1
  | .neg a => -(a.eval1)
  | .mul a b => a.eval1 * b.eval1
  | .divE a b => a.eval1 / b.eval1
  | .pow a n => (a.eval1) ^ n
  | _ => 1

/-! ### Elements and function spaces (setup_function_spaces) -/

/-- The five solution variables of the R13 system. -/
inductive Var where
  | theta | s | p | u | sigma
  deriving DecidableEq, Repr

/-- The var_ranks dict of both solver constructors. -/
def var_ranks : Var → ℕ
  | .theta => 0
  | .s => 1
  | .p => 0
  | .u => 1
  | .sigma => 2

/-- UFL finite elements as both modules build them: FiniteElement,
VectorElement, TensorElement with symmetry=True, TensorElement without
symmetry (as produced by TensorFunctionSpace), and MixedElement over a
list of subelements. -/
inductive Elem where
  | finite (shape : String) (cell : String) (deg : ℕ)
  | vector (shape : String) (cell : String) (deg : ℕ)
  | tensorSym (shape : String) (cell : String) (deg : ℕ)
  | tensor (shape : String) (cell : String) (deg : ℕ)
  | mixed (subs : List Elem)

/-- Shape and degree configured for one variable under
params with key elements. -/
structure ElemSpec where
  shape : String
  degree : ℕ
  deriving DecidableEq, Repr

/-- A dolfin FunctionSpace: the mesh (by an opaque id) paired with the
element. -/
structure FnSpace where
  meshId : ℕ
  elem : Elem

/-- Element dispatch of setup_function_spaces: rank 0 yields a
FiniteElement, rank 1 a VectorElement and rank 2 a symmetric
TensorElement.  var_ranks only takes the values 0, 1 and 2, so the final
branch is exactly the rank-2 case of the source. -/
def buildElem (cell : String) (spec : ElemSpec) (v : Var) : Elem :=
  if var_ranks v = 0 then .finite spec.shape cell spec.degree
  else if var_ranks v = 1 then .vector spec.shape cell spec.degree
  else .tensorSym spec.shape cell spec.degree

/-- Result of setup_function_spaces: per-variable elements and function
spaces, and the three mixed elements with their spaces. -/
structure Setup where
  elems : Var → Elem
  fspaces : Var → FnSpace
  mxd_heat : Elem
  mxd_stress : Elem
  mxd_coupled : Elem
  fs_heat : FnSpace
  fs_stress : FnSpace
  fs_coupled : FnSpace

/-- setup_function_spaces of the Fen version
(src/fenicsR13/src/solver.py lines 130 to 160).  The coupled element is
built as MixedElement(heat_elems, stress_elems); UFL wraps each list
argument into its own MixedElement, so the coupled element nests the heat
and stress mixed elements. -/
def setup_function_spaces_fen (cell : String) (msh : ℕ) (specs : Var → ElemSpec) : Setup :=
  let elems := fun v => buildElem cell (specs v) v
  let heat_elems := [elems .theta, elems .s]
  let stress_elems := [elems .p, elems .u, elems .sigma]
  { elems := elems
  , fspaces := fun v => ⟨msh, elems v⟩
  , mxd_heat := .mixed heat_elems
  , mxd_stress := .mixed stress_elems
  , mxd_coupled := .mixed [.mixed heat_elems, .mixed stress_elems]
  , fs_heat := ⟨msh, .mixed heat_elems⟩
  , fs_stress := ⟨msh, .mixed stress_elems⟩
  , fs_coupled := ⟨msh, .mixed [.mixed heat_elems, .mixed stress_elems]⟩ }

/-- setup_function_spaces of the Src version (src/src/solver.py lines 131
to 162).  The coupled element is MixedElement(heat_elems + stress_elems),
a flat product of the five elements. -/
def setup_function_spaces_src (cell : String) (msh : ℕ) (specs : Var → ElemSpec) : Setup :=
  let elems := fun v => buildElem cell (specs v) v
  let heat_elems := [elems .theta, elems .s]
  let stress_elems := [elems .p, elems .u, elems .sigma]
  { elems := elems
  , fspaces := fun v => ⟨msh, elems v⟩
  , mxd_heat := .mixed heat_elems
  , mxd_stress := .mixed stress_elems
  , mxd_coupled := .mixed (heat_elems ++ stress_elems)
  , fs_heat := ⟨msh, .mixed heat_elems⟩
  , fs_stress := ⟨msh, .mixed stress_elems⟩
  , fs_coupled := ⟨msh, .mixed (heat_elems ++ stress_elems)⟩ }

/-- Leaf subelements of an element, flattening nested mixed elements in
order. -/
def elemLeaves : Elem → List Elem
  | .finite sh c d => [.finite sh c d]
  | .vector sh c d => [.vector sh c d]
  | .tensorSym sh c d => [.tensorSym sh c d]
  | .tensor sh c d => [.tensor sh c d]
  | .mixed [] => []
  | .mixed (e :: es) => elemLeaves e ++ elemLeaves (.mixed es)

/-! ### Fields, error computation, solve and output -/

/-- Symbolic dolfin Function and FunctionSpace values as the solver
manipulates them: the stored solutions and exact solutions, the
per-variable function spaces, the result of a df.solve call, splits,
interpolations, projections, differences, dof vectors, vertex values and
the constant function holding a calc_sf_mean value.  tensorFnSpace is the
TensorFunctionSpace built inside write_xdmf. -/
inductive FieldExpr where
  | solF (v : Var)
  | esolF (v : Var)
  | fspaceF (v : Var)
  | solveResult (m : Mode)
  | splitF (f : FieldExpr) (i : ℕ)
  | interpolateF (f sp : FieldExpr)
  | projectF (f sp : FieldExpr)
  | subF (a b : FieldExpr)
  | vecOf (f : FieldExpr)
  | vertexValues (f : FieldExpr)
  | meanConstFn (f : FieldExpr)
  | tensorFnSpace (meshId : ℕ) (family : String) (deg : ℕ)
  deriving DecidableEq, Repr

/-- Symbolic real values produced by the error computation: df.errornorm
with the L2 norm, df.norm of a dof vector with the linf norm, and the
numpy max of the absolute difference of vertex values. -/
inductive ErrVal where
  | errornormL2 (a b : FieldExpr)
  | normLinfVec (a : FieldExpr)
  | maxAbsVertexDiff (a b : FieldExpr)
  deriving DecidableEq, Repr

/-- A value stored in the errors dict: a single number for scalar fields,
a list of numbers (one per component) for vector and tensor fields. -/
inductive EVal where
  | scalar (e : ErrVal)
  | vec (l : List ErrVal)
  deriving DecidableEq, Repr

/-- One row of the errors dict, indexed by the field name. -/
structure ErrTable where
  theta : Option EVal := none
  s : Option EVal := none
  p : Option EVal := none
  u : Option EVal := none
  sigma : Option EVal := none
  deriving DecidableEq, Repr

/-- The errors dict: self.errors with keys f then l2 and v then linf. -/
structure ErrState where
  f_l2 : ErrTable
  v_linf : ErrTable
  deriving DecidableEq, Repr

/-- calc_scalarfield_errors (both versions): returns the pair of the L2
errornorm between the exact and the discrete solution themselves, and the
linf norm of the difference of the dof vectors of their interpolations
into v_sol.  The xdmf writes of the difference and of the interpolated
exact field are output side effects not modelled here. -/
def calc_scalarfield_errors (sol_ sol_e_ v_sol : FieldExpr) : ErrVal × ErrVal :=
  (ErrVal.errornormL2 sol_e_ sol_,
   ErrVal.normLinfVec (.subF (.vecOf (.interpolateF sol_e_ v_sol))
     (.vecOf (.interpolateF sol_ v_sol))))

/-- calc_vectorfield_errors (both versions): interpolates both fields into
v_sol and returns componentwise L2 errornorms between the two
interpolations and componentwise maxima of absolute vertex-value
differences.  dofs stands for len(field_e_i.split()), determined by the
framework. -/
def calc_vectorfield_errors (dofs : ℕ) (sol_ sol_e_ v_sol : FieldExpr) :
    List ErrVal × List ErrVal :=
  let field_e_i := FieldExpr.interpolateF sol_e_ v_sol
  let field_i := FieldExpr.interpolateF sol_ v_sol
  ((List.range dofs).map (fun i => ErrVal.errornormL2 (.splitF field_e_i i) (.splitF field_i i)),
   (List.range dofs).map (fun i =>
     ErrVal.maxAbsVertexDiff (.splitF field_e_i i) (.splitF field_i i)))

/-- calc_tensorfield_errors (both versions): identical to the vector case
except that the written difference is projected from the interpolations;
the returned error pairs have the same shape. -/
def calc_tensorfield_errors (dofs : ℕ) (sol_ sol_e_ v_sol : FieldExpr) :
    List ErrVal × List ErrVal :=
  let field_e_i := FieldExpr.interpolateF sol_e_ v_sol
  let field_i := FieldExpr.interpolateF sol_ v_sol
  ((List.range dofs).map (fun i => ErrVal.errornormL2 (.splitF field_e_i i) (.splitF field_i i)),
   (List.range dofs).map (fun i =>
     ErrVal.maxAbsVertexDiff (.splitF field_e_i i) (.splitF field_i i)))

/-- Solver.calc_errors of the Fen version (src/fenicsR13/src/solver.py
lines 531 to 641): in heat mode the theta and s entries of the errors
dict are stored from the returned pairs, in stress mode the p, u and
sigma entries; dofsOf gives the framework-determined component count of
each interpolated field. -/
def calc_errors_fen (mode : Mode) (dofsOf : Var → ℕ) (st : ErrState) : ErrState :=
  match mode with
  | .heat =>
    let se := calc_scalarfield_errors (.solF .theta) (.esolF .theta) (.fspaceF .theta)
    let ve := calc_vectorfield_errors (dofsOf .s) (.solF .s) (.esolF .s) (.fspaceF .s)
    { f_l2 := { st.f_l2 with theta := some (.scalar se.1), s := some (.vec ve.1) }
    , v_linf := { st.v_linf with theta := some (.scalar se.2), s := some (.vec ve.2) } }
  | .stress =>
    let se := calc_scalarfield_errors (.solF .p) (.esolF .p) (.fspaceF .p)
    let ve := calc_vectorfield_errors (dofsOf .u) (.solF .u) (.esolF .u) (.fspaceF .u)
    let te := calc_tensorfield_errors (dofsOf .sigma) (.solF .sigma) (.esolF .sigma)
      (.fspaceF .sigma)
    { f_l2 :=
        { st.f_l2 with
          p := some (.scalar se.1)
          u := some (.vec ve.1)
          sigma := some (.vec te.1) }
    , v_linf :=
        { st.v_linf with
          p := some (.scalar se.2)
          u := some (.vec ve.2)
          sigma := some (.vec te.2) } }
  | .coupled => st

/-- Written from the claim sentence, for comparison with the code: the
componentwise L2 error norm between the exact solution and the discrete
solution of a vector or tensor field, without interpolating either. -/
def claimedVectorL2 (dofs : ℕ) (v : Var) : List ErrVal :=
  (List.range dofs).map (fun i => ErrVal.errornormL2 (.splitF (.esolF v) i) (.splitF (.solF v) i))

/-- The solution dict self.sol. -/
structure SolState where
  theta : Option FieldExpr := none
  s : Option FieldExpr := none
  p : Option FieldExpr := none
  u : Option FieldExpr := none
  sigma : Option FieldExpr := none
  deriving DecidableEq, Repr

/-- Record of one df.solve call: the two sides of the equation
form_a == form_b, the list of Dirichlet boundary conditions passed, and
the linear_solver parameter. -/
structure SolveCall where
  eqLhs : Option Form
  eqRhs : Option Form
  dirichlet_bcs : List ℕ
  linear_solver : String
  deriving DecidableEq, Repr

/-- Solver.solve of the Fen version (src/fenicsR13/src/solver.py lines
436 to 480).  In heat mode the mixed solution is split into theta and s
and the system is solved with mumps; in stress mode it is split into p, u
and sigma with the direct solver, and the pressure is replaced by its
interpolation minus the constant function holding its calc_sf_mean value.
Both calls pass the empty list of Dirichlet conditions.  For any other
mode nothing happens. -/
def solveFen (mode : Mode) (form_a form_b : Option Form) (st : SolState) :
    SolState × Option SolveCall :=
  match mode with
  | .heat =>
    let sol := FieldExpr.solveResult .heat
    ({ st with theta := some (.splitF sol 0), s := some (.splitF sol 1) },
     some ⟨form_a, form_b, [], "mumps"⟩)
  | .stress =>
    let sol := FieldExpr.solveResult .stress
    let p_i := FieldExpr.interpolateF (.splitF sol 0) (.fspaceF .p)
    ({ st with p := some (.subF p_i (.meanConstFn p_i)),
               u := some (.splitF sol 1), sigma := some (.splitF sol 2) },
     some ⟨form_a, form_b, [], "direct"⟩)
  | .coupled => (st, none)

/-! ### XDMF output (write_solutions and write_xdmf) -/

/-- A dolfin Function as passed to write_xdmf: its element and its
symbolic data. -/
structure OutField where
  elem : Elem
  dataF : FieldExpr

/-- The comparison el_sol == el_symm inside write_xdmf, where el_symm is
TensorElement(FiniteElement(Lagrange, triangle, deg), symmetry=True). -/
def el_symm_match (el_sol : Elem) (deg : ℕ) : Bool :=
  match el_sol with
  | .tensorSym shape cell d => shape == "Lagrange" && cell == "triangle" && d == deg
  | _ => false

/-- One write performed by write_xdmf: the xdmf file path, the name the
field is renamed to, the written field and the time stamp. -/
structure WriteRec where
  filename : String
  fieldName : String
  written : OutField
  time : String

/-- Solver.write_xdmf (identical in both versions): the file path is the
output folder followed by the name, an underscore, the time string and
the suffix .xdmf.  The loop over degree in range(5) replaces a field
whose element equals the symmetric Lagrange tensor element of degree
degree+1 by its projection into the non-symmetric TensorFunctionSpace of
the same degree, and leaves every other field unchanged; the field is
renamed to name before writing. -/
def write_xdmf (output_folder time name : String) (meshId : ℕ) (field : OutField) : WriteRec :=
  let filename := output_folder ++ name ++ "_" ++ time ++ ".xdmf"
  let field2 :=
    match (List.range 5).find? (fun degree => el_symm_match field.elem (degree + 1)) with
    | some degree =>
        { elem := Elem.tensor "Lagrange" "triangle" (degree + 1)
        , dataF := FieldExpr.projectF field.dataF
            (.tensorFnSpace meshId "Lagrange" (degree + 1)) }
    | none => field
  ⟨filename, name, field2, time⟩

/-- Name of each variable as it keys the solution dict. -/
def varName : Var → String
  | .theta => "theta"
  | .s => "s"
  | .p => "p"
  | .u => "u"
  | .sigma => "sigma"

/-- Iteration order of the solution dict self.sol. -/
def varOrder : List Var := [.theta, .s, .p, .u, .sigma]

/-- Solver.write_solutions (identical in both versions): iterate the
solution dict in insertion order and write every field that is not None
via write_xdmf under its variable name. -/
def write_solutions (output_folder time : String) (meshId : ℕ)
    (sols : Var → Option OutField) : List WriteRec :=
  varOrder.filterMap (fun v =>
    (sols v).map (fun f => write_xdmf output_folder time (varName v) meshId f))

/-! ### Concrete instances used by counterexamples and witnesses -/

/-- Parameter dict for the C1 counterexample: stress mode with
use_coeffs, tau 1, xi_tilde 2, stabilization disabled, no boundary
conditions (so check_bcs accepts the empty boundary array and both
modules assemble successfully). -/
def Pc1 : Params := ⟨.stress, true, 1, 2, false, 1, 1, 1, []⟩

/-- Heat-mode parameter dict used by the C1 witness. -/
def P1w : Params := ⟨.heat, true, 1, 1, true, 1, 1, 1, [(3000, ⟨1, 0⟩)]⟩

/-- Parameter dict used by the C8 witness, prescribing bcs only for
boundary id 1. -/
def P8w : Params := ⟨.heat, true, 1, 1, true, 1, 1, 1, [(1, ⟨1, 0⟩)]⟩

/-- Symmetric jet used by the C9 witness. -/
def sWitJet : Jet2 := fun i j k =>
  match i.val, j.val, k.val with
  | 0, 0, 0 => 2 | 0, 0, 1 => 3
  | 0, 1, 0 => 5 | 0, 1, 1 => 7
  | 1, 0, 0 => 5 | 1, 0, 1 => 7
  | 1, 1, 0 => 11 | 1, 1, 1 => 13
  | _, _, _ => 0

/-- Symmetric jet used by the C9 witness. -/
def pWitJet : Jet2 := fun i j k =>
  match i.val, j.val, k.val with
  | 0, 0, 0 => 17 | 0, 0, 1 => 19
  | 0, 1, 0 => 23 | 0, 1, 1 => 29
  | 1, 0, 0 => 23 | 1, 0, 1 => 29
  | 1, 1, 0 => 31 | 1, 1, 1 => 37
  | _, _, _ => 0

/-- Symmetric degree-2 Lagrange tensor field used by the C7 witness. -/
def f7 : OutField := ⟨Elem.tensorSym "Lagrange" "triangle" 2, .solF .sigma⟩

/-! ### Theorems -/

/-- C2: for every 2x2 rank-2 tensor B, gen3dTracefreeTensor(B) returns a
3x3 tensor whose upper-left 2x2 block equals B, whose (0,2), (1,2), (2,0)
and (2,1) entries are zero, whose trace is zero, and whose (2,2) entry is
-(B[0,0]+B[1,1]). -/
theorem C2_gen3dTracefreeTensor (B : Fin 2 → Fin 2 → ℚ) :
    gen3dQ B 0 0 = B 0 0 ∧ gen3dQ B 0 1 = B 0 1
  ∧ gen3dQ B 1 0 = B 1 0 ∧ gen3dQ B 1 1 = B 1 1
  ∧ gen3dQ B 0 2 = 0 ∧ gen3dQ B 1 2 = 0 ∧ gen3dQ B 2 0 = 0 ∧ gen3dQ B 2 1 = 0
  ∧ (∑ i, gen3dQ B i i) = 0
  ∧ gen3dQ B 2 2 = -(B 0 0 + B 1 1) := by
  refine ⟨rfl, rfl, rfl, rfl, rfl, rfl, rfl, rfl, ?_, ?_⟩
  · rw [Fin.sum_univ_three]
    show B 0 0 + B 1 1 + (-B 0 0 - B 1 1) = 0
    ring
  · show -B 0 0 - B 1 1 = -(B 0 0 + B 1 1)
    ring

/-- C9: for all symmetric 2x2 rank-2 tensor fields sigma and psi
(symmetry expressed on the jets: the derivatives of the (0,1) and (1,0)
components agree), the hardcoded expansion inside
innerOfDevOfGrad2AndGrad2 equals the compositional formulation
df.inner(dev3(grad3dOf2(gen3dTracefreeTensor(sigma))),
grad3dOf2(gen3dTracefreeTensor(psi))).  The identity in fact holds for
arbitrary jets; the symmetry hypotheses of the claim are not needed. -/
theorem C9_hardcoded_eq_compositional (S P : Jet2)
    (_hS : ∀ k, S 0 1 k = S 1 0 k) (_hP : ∀ k, P 0 1 k = P 1 0 k) :
    hardcodedInner S P = compositionalInner S P := by
  simp only [hardcodedInner, compositionalInner, inner3Q, dev3Q, sym3Q, grad3dOf2Gen, gen3dQ,
    Fin.sum_univ_three, Fin.isValue]
  norm_num
  ring

/-- Witness for C9 at a concrete pair of symmetric jets. -/
theorem C9_witness :
    ((∀ k, sWitJet 0 1 k = sWitJet 1 0 k) ∧ (∀ k, pWitJet 0 1 k = pWitJet 1 0 k))
  ∧ hardcodedInner sWitJet pWitJet = compositionalInner sWitJet pWitJet :=
  ⟨⟨by decide, by decide⟩,
   C9_hardcoded_eq_compositional sWitJet pWitJet (by decide) (by decide)⟩

/-- Sum of a list after subtracting a constant from every entry. -/
theorem sum_map_sub_const (v : List ℚ) (c : ℚ) :
    (v.map (fun x => x - c)).sum = v.sum - v.length * c := by
  induction v with
  | nil => simp
  | cons x xs ih =>
    simp only [List.map_cons, List.sum_cons, List.length_cons, ih]
    push_cast
    ring

/-- C10: subtracting the constant calc_sf_mean(v) from every entry of a
coefficient vector v yields a vector whose calc_sf_mean is exactly zero
in rational arithmetic, and after Solver.solve in stress mode (Fen
version) the stored pressure is exactly the interpolated pressure minus
the constant function holding its calc_sf_mean value. -/
theorem C10_zero_mean (v : List ℚ) (form_a form_b : Option Form) (st : SolState) :
    calc_sf_mean (v.map (fun x => x - calc_sf_mean v)) = 0
  ∧ (solveFen .stress form_a form_b st).1.p
      = some (.subF (.interpolateF (.splitF (.solveResult .stress) 0) (.fspaceF .p))
          (.meanConstFn (.interpolateF (.splitF (.solveResult .stress) 0) (.fspaceF .p)))) := by
  constructor
  · unfold calc_sf_mean
    rcases eq_or_ne v [] with h | h
    · subst h; simp
    · have hn : (v.length : ℚ) ≠ 0 := by
        have := List.length_pos.mpr h
        positivity
      rw [sum_map_sub_const, List.length_map]
      rw [mul_div_cancel₀ _ hn]
      simp
  · rfl

/-- C8: check_bcs succeeds exactly when every entry of the boundary array
is 0 or a key of the bcs dict (check_bcs only reads state, it is embedded
as a pure function), and whenever some boundary id is unprescribed,
Solver.assemble of the Fen version raises before constructing any form
(it returns the error and no forms). -/
theorem C8_check_bcs (boundaryIds : List ℕ) (P : Params) :
    (check_bcs boundaryIds (P.bcs.map (fun bc => bc.1)) = .ok ()
      ↔ ∀ e ∈ boundaryIds, e ∈ 0 :: P.bcs.map (fun bc => bc.1))
  ∧ ((∃ e ∈ boundaryIds, e ∉ 0 :: P.bcs.map (fun bc => bc.1)) →
      ∃ msg, assembleFen P boundaryIds = .error msg) := by
  have key : ∀ keys : List ℕ, (check_bcs boundaryIds keys = .ok ()
      ↔ ∀ e ∈ boundaryIds, e ∈ 0 :: keys) := by
    intro keys
    unfold check_bcs
    rcases h : boundaryIds.find? (fun e => !((0 :: keys).contains e)) with _ | e
    · simp only []
      constructor
      · intro _ x hx
        have hx2 := List.find?_eq_none.mp h x hx
        simp only [List.mem_cons]
        exact or_iff_not_imp_left.mpr (by simpa using hx2)
      · intro _
        trivial
    · simp only []
      constructor
      · intro hcontra
        exact absurd hcontra (by simp)
      · intro hall
        have hmem := List.mem_of_find?_eq_some h
        have hpred := List.find?_some h
        have hin := hall e hmem
        simp at hpred
        simp only [List.mem_cons] at hin
        rcases hin with h0 | hk
        · exact absurd h0 hpred.1
        · exact absurd hk hpred.2
  refine ⟨key _, ?_⟩
  rintro ⟨e, he, hnotin⟩
  rcases hc : check_bcs boundaryIds (P.bcs.map (fun bc => bc.1)) with msg | uu
  · refine ⟨msg, ?_⟩
    unfold assembleFen
    rw [hc]
  · cases uu
    exact absurd ((key _).mp hc e he) hnotin

/-- Witness for C8 at the concrete boundary array [5] with keys [1]. -/
theorem C8_witness :
    (∃ e ∈ [(5:ℕ)], e ∉ 0 :: P8w.bcs.map (fun bc => bc.1))
  ∧ ∃ msg, assembleFen P8w [5] = .error msg :=
  ⟨⟨5, by decide, by decide⟩, (C8_check_bcs [5] P8w).2 ⟨5, by decide, by decide⟩⟩

/-- C6: Solver.solve of the Fen version solves form_a == form_b with the
empty list of Dirichlet conditions using a sparse direct solver (mumps in
heat mode, the default direct solver in stress mode), sets exactly the
solution entries of the current mode and leaves the entries of the other
mode untouched (in particular still None when they start as None). -/
theorem C6_solve_frame (form_a form_b : Option Form) (st : SolState) :
    ((solveFen .heat form_a form_b st).1.theta = some (.splitF (.solveResult .heat) 0)
    ∧ (solveFen .heat form_a form_b st).1.s = some (.splitF (.solveResult .heat) 1)
    ∧ (solveFen .heat form_a form_b st).1.p = st.p
    ∧ (solveFen .heat form_a form_b st).1.u = st.u
    ∧ (solveFen .heat form_a form_b st).1.sigma = st.sigma
    ∧ (solveFen .heat form_a form_b st).2 = some ⟨form_a, form_b, [], "mumps"⟩)
  ∧ ((solveFen .stress form_a form_b st).1.p
        = some (.subF (.interpolateF (.splitF (.solveResult .stress) 0) (.fspaceF .p))
            (.meanConstFn (.interpolateF (.splitF (.solveResult .stress) 0) (.fspaceF .p))))
    ∧ (solveFen .stress form_a form_b st).1.u = some (.splitF (.solveResult .stress) 1)
    ∧ (solveFen .stress form_a form_b st).1.sigma = some (.splitF (.solveResult .stress) 2)
    ∧ (solveFen .stress form_a form_b st).1.theta = st.theta
    ∧ (solveFen .stress form_a form_b st).1.s = st.s
    ∧ (solveFen .stress form_a form_b st).2 = some ⟨form_a, form_b, [], "direct"⟩) :=
  ⟨⟨rfl, rfl, rfl, rfl, rfl, rfl⟩, ⟨rfl, rfl, rfl, rfl, rfl, rfl⟩⟩

/-- C5: setup_function_spaces builds for each variable an element of the
configured shape and degree whose kind follows the variable's rank (0
gives FiniteElement, 1 VectorElement, 2 a symmetric TensorElement) and a
FunctionSpace of that element on the mesh; the heat mixed element is the
product of the theta and s elements, the stress mixed element of the p, u
and sigma elements, and the coupled element has exactly the five elements
as leaves in both versions (the Fen version nests the heat and stress
products, the Src version is flat). -/
theorem C5_setup_function_spaces (cell : String) (msh : ℕ) (specs : Var → ElemSpec) :
    (setup_function_spaces_fen cell msh specs).elems .theta
        = .finite (specs .theta).shape cell (specs .theta).degree
  ∧ (setup_function_spaces_fen cell msh specs).elems .s
        = .vector (specs .s).shape cell (specs .s).degree
  ∧ (setup_function_spaces_fen cell msh specs).elems .p
        = .finite (specs .p).shape cell (specs .p).degree
  ∧ (setup_function_spaces_fen cell msh specs).elems .u
        = .vector (specs .u).shape cell (specs .u).degree
  ∧ (setup_function_spaces_fen cell msh specs).elems .sigma
        = .tensorSym (specs .sigma).shape cell (specs .sigma).degree
  ∧ (∀ v, (setup_function_spaces_fen cell msh specs).fspaces v
        = ⟨msh, (setup_function_spaces_fen cell msh specs).elems v⟩)
  ∧ (setup_function_spaces_fen cell msh specs).mxd_heat
        = .mixed [(setup_function_spaces_fen cell msh specs).elems .theta,
                  (setup_function_spaces_fen cell msh specs).elems .s]
  ∧ (setup_function_spaces_fen cell msh specs).mxd_stress
        = .mixed [(setup_function_spaces_fen cell msh specs).elems .p,
                  (setup_function_spaces_fen cell msh specs).elems .u,
                  (setup_function_spaces_fen cell msh specs).elems .sigma]
  ∧ (setup_function_spaces_fen cell msh specs).fs_heat
        = ⟨msh, (setup_function_spaces_fen cell msh specs).mxd_heat⟩
  ∧ (setup_function_spaces_fen cell msh specs).fs_stress
        = ⟨msh, (setup_function_spaces_fen cell msh specs).mxd_stress⟩
  ∧ elemLeaves (setup_function_spaces_fen cell msh specs).mxd_coupled
        = [(setup_function_spaces_fen cell msh specs).elems .theta,
           (setup_function_spaces_fen cell msh specs).elems .s,
           (setup_function_spaces_fen cell msh specs).elems .p,
           (setup_function_spaces_fen cell msh specs).elems .u,
           (setup_function_spaces_fen cell msh specs).elems .sigma]
  ∧ elemLeaves (setup_function_spaces_src cell msh specs).mxd_coupled
        = [(setup_function_spaces_fen cell msh specs).elems .theta,
           (setup_function_spaces_fen cell msh specs).elems .s,
           (setup_function_spaces_fen cell msh specs).elems .p,
           (setup_function_spaces_fen cell msh specs).elems .u,
           (setup_function_spaces_fen cell msh specs).elems .sigma]
  ∧ (setup_function_spaces_src cell msh specs).elems
        = (setup_function_spaces_fen cell msh specs).elems
  ∧ (setup_function_spaces_src cell msh specs).mxd_heat
        = (setup_function_spaces_fen cell msh specs).mxd_heat
  ∧ (setup_function_spaces_src cell msh specs).mxd_stress
        = (setup_function_spaces_fen cell msh specs).mxd_stress := by
  refine ⟨rfl, rfl, rfl, rfl, rfl, fun v => rfl, rfl, rfl, rfl, rfl, ?_, ?_, rfl, rfl, rfl⟩
  · simp [setup_function_spaces_fen, elemLeaves, buildElem, var_ranks]
  · simp [setup_function_spaces_fen, setup_function_spaces_src, elemLeaves, buildElem, var_ranks]

/-- C3: with stabilization.cip.enable, form_a gains exactly one interior
facet (dS) integral whose integrand is the CIP penalty on jumps of
gradients (scaled by delta_1 times h_avg cubed for theta in heat mode,
and by delta_2 times h_avg cubed for u together with delta_3 times h_avg
for p in stress mode, see heatStabIntegrand and stressStabIntegrand);
without it form_a contains no dS integral at all.  Stated for the
assemble of both versions. -/
theorem C3_cip_stabilization (P : Params) :
    ((heatFormsFen { P with use_cip := true }).1
      = (heatFormsFen { P with use_cip := false }).1
        ++ [(heatStabIntegrand P.delta_1, Meas.dS)])
  ∧ ((stressFormsFen { P with use_cip := true }).1
      = (stressFormsFen { P with use_cip := false }).1
        ++ [(stressStabIntegrand P.delta_2 P.delta_3, Meas.dS)])
  ∧ ((heatFormsFen { P with use_cip := false }).1.all (fun i => !(i.2 == Meas.dS)) = true)
  ∧ ((stressFormsFen { P with use_cip := false }).1.all (fun i => !(i.2 == Meas.dS)) = true)
  ∧ ((heatFormsSrc { P with use_cip := true }).1
      = (heatFormsSrc { P with use_cip := false }).1
        ++ [(heatStabIntegrand P.delta_1, Meas.dS)])
  ∧ ((stressFormsSrc { P with use_cip := true }).1
      = (stressFormsSrc { P with use_cip := false }).1
        ++ [(stressStabIntegrand P.delta_2 P.delta_3, Meas.dS)])
  ∧ ((heatFormsSrc { P with use_cip := false }).1.all (fun i => !(i.2 == Meas.dS)) = true)
  ∧ ((stressFormsSrc { P with use_cip := false }).1.all (fun i => !(i.2 == Meas.dS)) = true) := by
  rcases P with ⟨mode, uc, tau, xi, cip, d1, d2, d3, bcs⟩
  cases uc <;>
    refine ⟨?_, ?_, ?_, ?_, ?_, ?_, ?_, ?_⟩ <;>
    simp [heatFormsFen, stressFormsFen, heatFormsSrc, stressFormsSrc]

/-- C7: write_solutions writes exactly the solution fields that are not
None; write_xdmf writes the field renamed to the given name into the file
at the path formed by the output folder, the name, an underscore, the
time string and the suffix .xdmf; a field whose element is a symmetric
Lagrange tensor element of degree 1 through 5 is first projected into the
non-symmetric tensor function space of the same degree, and any other
field is written unchanged. -/
theorem C7_write_solutions (output_folder time name : String) (meshId : ℕ)
    (sols : Var → Option OutField) (field : OutField) (d : ℕ)
    (h1 : 1 ≤ d) (h2 : d ≤ 5)
    (h3 : field.elem = Elem.tensorSym "Lagrange" "triangle" d) :
    ((write_xdmf output_folder time name meshId field).filename
        = output_folder ++ name ++ "_" ++ time ++ ".xdmf")
  ∧ ((write_xdmf output_folder time name meshId field).fieldName = name)
  ∧ ((write_xdmf output_folder time name meshId field).written.elem
        = Elem.tensor "Lagrange" "triangle" d)
  ∧ ((write_xdmf output_folder time name meshId field).written.dataF
        = .projectF field.dataF (.tensorFnSpace meshId "Lagrange" d))
  ∧ (∀ f2 : OutField,
        ((List.range 5).all (fun degree => !(el_symm_match f2.elem (degree + 1)))) = true →
        (write_xdmf output_folder time name meshId f2).written.elem = f2.elem
        ∧ (write_xdmf output_folder time name meshId f2).written.dataF = f2.dataF)
  ∧ (∀ v f, sols v = some f →
        write_xdmf output_folder time (varName v) meshId f
          ∈ write_solutions output_folder time meshId sols)
  ∧ (∀ w ∈ write_solutions output_folder time meshId sols,
        ∃ v f, sols v = some f
          ∧ w = write_xdmf output_folder time (varName v) meshId f) := by
  obtain ⟨el, dataF⟩ := field
  simp only at h3
  subst h3
  refine ⟨rfl, rfl, ?_, ?_, ?_, ?_, ?_⟩
  · interval_cases d <;> rfl
  · interval_cases d <;> rfl
  · intro f2 hall
    have hfind : (List.range 5).find? (fun degree => el_symm_match f2.elem (degree + 1))
        = none := by
      rw [List.find?_eq_none]
      intro a ha
      have := List.all_eq_true.mp hall a ha
      simp at this
      simp [this]
    constructor
    · simp [write_xdmf, hfind]
    · simp [write_xdmf, hfind]
  · intro v f hv
    unfold write_solutions
    rw [List.mem_filterMap]
    refine ⟨v, ?_, ?_⟩
    · cases v <;> simp [varOrder]
    · rw [hv]
      rfl
  · intro w hw
    unfold write_solutions at hw
    rw [List.mem_filterMap] at hw
    obtain ⟨v, _, hmap⟩ := hw
    rcases hv : sols v with _ | f
    · rw [hv] at hmap
      cases hmap
    · rw [hv] at hmap
      refine ⟨v, f, hv, ?_⟩
      cases hmap
      rfl

/-- Witness for C7 at a concrete symmetric degree-2 Lagrange tensor
field. -/
theorem C7_witness :
    (1 ≤ 2 ∧ 2 ≤ 5 ∧ f7.elem = Elem.tensorSym "Lagrange" "triangle" 2)
  ∧ (write_xdmf "out/" "0" "sigma" 0 f7).written.elem = Elem.tensor "Lagrange" "triangle" 2
  ∧ (write_xdmf "out/" "0" "sigma" 0 f7).filename = "out/" ++ "sigma" ++ "_" ++ "0" ++ ".xdmf" :=
  ⟨⟨by decide, by decide, rfl⟩,
   (C7_write_solutions "out/" "0" "sigma" 0 (fun _ => none) f7 2 (by decide) (by decide)
      rfl).2.2.1,
   (C7_write_solutions "out/" "0" "sigma" 0 (fun _ => none) f7 2 (by decide) (by decide)
      rfl).1⟩

/-- C4 amended: calc_errors stores, for each field of the current mode,
the L2 error and the l_inf error under the field's name in
errors with keys f, l2 and v, linf, and the inner helpers return them as
a pair (L2 error, l_inf error).  For the scalar field of each mode the L2
error is the errornorm between the exact solution and the discrete
solution themselves; for the vector and tensor fields both the
componentwise L2 errornorms and the componentwise l_inf values are
computed between the interpolations of the exact and discrete solutions
into the field's function space, not between the solutions themselves. -/
theorem C4_calc_errors (dofsOf : Var → ℕ) (st : ErrState) :
    ((calc_errors_fen .heat dofsOf st).f_l2.theta
        = some (.scalar (.errornormL2 (.esolF .theta) (.solF .theta))))
  ∧ ((calc_errors_fen .heat dofsOf st).v_linf.theta
        = some (.scalar (.normLinfVec (.subF
            (.vecOf (.interpolateF (.esolF .theta) (.fspaceF .theta)))
            (.vecOf (.interpolateF (.solF .theta) (.fspaceF .theta)))))))
  ∧ ((calc_errors_fen .heat dofsOf st).f_l2.s
        = some (.vec ((List.range (dofsOf .s)).map (fun i =>
            ErrVal.errornormL2 (.splitF (.interpolateF (.esolF .s) (.fspaceF .s)) i)
              (.splitF (.interpolateF (.solF .s) (.fspaceF .s)) i)))))
  ∧ ((calc_errors_fen .heat dofsOf st).v_linf.s
        = some (.vec ((List.range (dofsOf .s)).map (fun i =>
            ErrVal.maxAbsVertexDiff (.splitF (.interpolateF (.esolF .s) (.fspaceF .s)) i)
              (.splitF (.interpolateF (.solF .s) (.fspaceF .s)) i)))))
  ∧ ((calc_errors_fen .stress dofsOf st).f_l2.p
        = some (.scalar (.errornormL2 (.esolF .p) (.solF .p))))
  ∧ ((calc_errors_fen .stress dofsOf st).v_linf.p
        = some (.scalar (.normLinfVec (.subF
            (.vecOf (.interpolateF (.esolF .p) (.fspaceF .p)))
            (.vecOf (.interpolateF (.solF .p) (.fspaceF .p)))))))
  ∧ ((calc_errors_fen .stress dofsOf st).f_l2.u
        = some (.vec ((List.range (dofsOf .u)).map (fun i =>
            ErrVal.errornormL2 (.splitF (.interpolateF (.esolF .u) (.fspaceF .u)) i)
              (.splitF (.interpolateF (.solF .u) (.fspaceF .u)) i)))))
  ∧ ((calc_errors_fen .stress dofsOf st).v_linf.u
        = some (.vec ((List.range (dofsOf .u)).map (fun i =>
            ErrVal.maxAbsVertexDiff (.splitF (.interpolateF (.esolF .u) (.fspaceF .u)) i)
              (.splitF (.interpolateF (.solF .u) (.fspaceF .u)) i)))))
  ∧ ((calc_errors_fen .stress dofsOf st).f_l2.sigma
        = some (.vec ((List.range (dofsOf .sigma)).map (fun i =>
            ErrVal.errornormL2 (.splitF (.interpolateF (.esolF .sigma) (.fspaceF .sigma)) i)
              (.splitF (.interpolateF (.solF .sigma) (.fspaceF .sigma)) i)))))
  ∧ ((calc_errors_fen .stress dofsOf st).v_linf.sigma
        = some (.vec ((List.range (dofsOf .sigma)).map (fun i =>
            ErrVal.maxAbsVertexDiff (.splitF (.interpolateF (.esolF .sigma) (.fspaceF .sigma)) i)
              (.splitF (.interpolateF (.solF .sigma) (.fspaceF .sigma)) i)))))
  ∧ (∀ a b c, calc_scalarfield_errors a b c
        = (ErrVal.errornormL2 b a,
           ErrVal.normLinfVec (.subF (.vecOf (.interpolateF b c)) (.vecOf (.interpolateF a c)))))
  ∧ (∀ n a b c, calc_vectorfield_errors n a b c
        = ((List.range n).map (fun i =>
            ErrVal.errornormL2 (.splitF (.interpolateF b c) i) (.splitF (.interpolateF a c) i)),
           (List.range n).map (fun i =>
            ErrVal.maxAbsVertexDiff (.splitF (.interpolateF b c) i)
              (.splitF (.interpolateF a c) i))))
  ∧ (∀ n a b c, calc_tensorfield_errors n a b c = calc_vectorfield_errors n a b c) :=
  ⟨rfl, rfl, rfl, rfl, rfl, rfl, rfl, rfl, rfl, rfl,
   fun _ _ _ => rfl, fun _ _ _ _ => rfl, fun _ _ _ _ => rfl⟩

/-- Counterexample to C4 as stated: in heat mode with two components for
s, the stored L2 value for the vector field s is computed from the
interpolations of the exact and discrete solutions, not (as the claim
states) between the exact solution and the discrete solution themselves;
the two computations are different. -/
theorem C4_counterexample :
    (calc_errors_fen .heat (fun _ => 2) ⟨{}, {}⟩).f_l2.s
      ≠ some (.vec (claimedVectorL2 2 .s)) := by
  decide

/-- Counterexample to C1 as stated: with the same parameter dict Pc1
(stress mode, use_coeffs, tau 1, xi_tilde 2, no stabilization, empty bcs)
and the same (empty) boundary array, accepted by both modules, the two
assembles produce different bilinear forms: the sigma_nn*psi_nn boundary
coefficient is 21/(10*xi_tilde) = 21/20 in the Fen version but
21/10*xi_tilde = 21/5 in the Src version.  The second conjunct evaluates
the two boundary integrands under the interpretation sending every
non-arithmetic leaf to one, showing they denote different functions. -/
theorem C1_counterexample :
    assembleFen Pc1 [] ≠ assembleSrc Pc1 []
  ∧ SExpr.eval1 (stressA1dsFen 2) ≠ SExpr.eval1 (stressA3dsSrc 2) := by
  constructor
  · intro h
    simp only [assembleFen, assembleSrc, Pc1, check_bcs, List.map_nil, List.find?_nil,
      stressFormsFen, stressFormsSrc] at h
    norm_num at h
    obtain ⟨-, h2⟩ := h
    simp only [stressA1dsFen, stressA3dsSrc] at h2
    norm_num at h2
  · simp only [stressA1dsFen, stressA3dsSrc, SExpr.eval1, sigma_nn, psi_nn, sigma_tt, psi_tt,
      sigma_nt, psi_nt, dotVec, matVec, sigmaMat, psiMat, normalVec, tVec, perpVec]
    norm_num

/-- C1 amended: with the same parameter dict and boundary array, the two
modules produce identical forms in heat mode (for either use_coeffs
value); in stress mode they agree exactly when the two boundary
coefficients 21/(10*xi_tilde) and 21/10*xi_tilde coincide, i.e. when
xi_tilde squared is 1 (use_coeffs must hold for either stress assembly to
succeed).  Everything outside that one coefficient is identical. -/
theorem C1_amended (P : Params) (bIds : List ℕ)
    (h : P.mode = Mode.heat ∨ (P.mode = Mode.stress ∧ P.use_coeffs = true ∧ P.xi_tilde ^ 2 = 1)) :
    assembleFen P bIds = assembleSrc P bIds := by
  rcases P with ⟨mode, uc, tau, xi, cip, d1, d2, d3, bcs⟩
  dsimp only at h
  unfold assembleFen assembleSrc
  dsimp only
  rcases hcb : check_bcs bIds (bcs.map (fun bc => bc.1)) with msg | uu
  · rw [hcb]
  · rw [hcb]
    rcases h with hmode | ⟨hmode, huc, hxi⟩
    · subst hmode
      cases uc <;> rfl
    · subst hmode
      subst huc
      have hx : xi = 1 ∨ xi = -1 := by
        have h0 : (xi - 1) * (xi + 1) = 0 := by
          have h1 : xi ^ 2 - 1 = 0 := by rw [hxi]; ring
          calc (xi - 1) * (xi + 1) = xi ^ 2 - 1 := by ring
            _ = 0 := h1
        rcases mul_eq_zero.mp h0 with h2 | h2
        · left; linarith
        · right; linarith
      have hds : stressA1dsFen xi = stressA3dsSrc xi := by
        unfold stressA1dsFen stressA3dsSrc
        rcases hx with h2 | h2 <;> subst h2 <;> norm_num
      simp only [stressFormsFen, stressFormsSrc, hds]
      rfl

/-- Witness for the amended C1 at a concrete heat-mode parameter dict. -/
theorem C1_witness :
    (P1w.mode = Mode.heat
      ∨ (P1w.mode = Mode.stress ∧ P1w.use_coeffs = true ∧ P1w.xi_tilde ^ 2 = 1))
  ∧ assembleFen P1w [3000] = assembleSrc P1w [3000] :=
  ⟨Or.inl rfl, C1_amended P1w [3000] (Or.inl rfl)⟩
